import Mathlib

/-!
Verification of `camera.py` from the OlympusGUI repository: a shallow
embedding of the `OlympusCamera` class in Lean 4, with theorems checking
the natural-language specification against the code.

Python dictionaries are modelled as association lists that keep Python
dict semantics: insertion order is preserved, and writing to an existing
key overwrites the value in place (the key keeps its original position).
-/

namespace OlympusGUI

/-- Python dict assignment `d[k] = v`: overwrite in place when the key is
present, otherwise append at the end. -/
def dinsert {α : Type} (k : String) (v : α) : List (String × α) → List (String × α)
  | [] => [(k, v)]
  | (k', v') :: rest => if k' = k then (k, v) :: rest else (k', v') :: dinsert k v rest

/-- Python dict lookup `d[k]` / membership `k in d`. -/
def alookup {α : Type} (m : List (String × α)) (k : String) : Option α :=
  match m with
  | [] => none
  | (k', v) :: rest => if k' = k then some v else alookup rest k

/-- Python `list(d)`: keys in insertion order. -/
def akeys {α : Type} (m : List (String × α)) : List String := m.map (fun p => p.1)

/-- Python whitespace test used by `str.strip`. -/
def pyIsSpace (c : Char) : Bool :=
  c = ' ' || c = '\t' || c = '\n' || c = '\r' || c = '\x0b' || c = '\x0c'

/-- Python `str.strip()`: remove leading and trailing whitespace. -/
def pstrip (s : String) : String :=
  String.mk (((s.toList.dropWhile pyIsSpace).reverse.dropWhile pyIsSpace).reverse)

/-- Python `s.startswith(pre)`. -/
def pystartswith (s pre : String) : Bool := pre.toList.isPrefixOf s.toList

/-- A Python value as passed in `**args`: a string, a bytes object, or a
`datetime.time` instance (only its type matters here). -/
inductive PyVal : Type where
  | str : String → PyVal
  | bytes : List Nat → PyVal
  | timeObj : PyVal
deriving DecidableEq, Repr

/-- A validation node of the command schema: the Python type
`Dict[str, Optional[dict]]`, recursively. -/
inductive VTree : Type where
  | mk : List (String × Option VTree) → VTree

/-- The entries of a validation node. -/
def VTree.entries : VTree → List (String × Option VTree)
  | .mk es => es

mutual
/-- `xml.etree.ElementTree.Element`: tag, attributes, text, children.
Children are a mutually defined list so that recursion measures are
straightforward. -/
inductive Element : Type where
  | mk : String → List (String × String) → Option String → ElementList → Element

inductive ElementList : Type where
  | nil : ElementList
  | cons : Element → ElementList → ElementList
end

def Element.tag : Element → String
  | .mk t _ _ _ => t

def Element.attrib : Element → List (String × String)
  | .mk _ a _ _ => a

def Element.text : Element → Option String
  | .mk _ _ x _ => x

def Element.children : Element → ElementList
  | .mk _ _ _ cs => cs

/-- `'name' in param.attrib` / `param.attrib['name']`. Python raises
KeyError on a missing mandatory attribute; the claims quantify over
elements where the accessed attribute exists, so the default is never
reached there. -/
def Element.attrD (e : Element) (k : String) : Option String := alookup e.attrib k

def ANY_PARAMETER : String := "*"

/-- `EMPTY_PARAMETERS = {ANY_PARAMETER: None}` in the source. -/
def EMPTY_PARAMETERS : List (String × Option VTree) := [(ANY_PARAMETER, none)]

mutual
/-- `commandlist_params` from camera.py lines 66-74: parse the parameters
of one declaration element. -/
def commandlist_params : Element → VTree
  | .mk _ _ _ cs => paramsLoop cs []
termination_by structural e => e

/-- The `for param in parent` loop of `commandlist_params`, with the
accumulated dict `params`.  A sibling whose tag starts with `cmd`
short-circuits, discarding the accumulator; at the end an empty dict is
replaced by `EMPTY_PARAMETERS`. -/
def paramsLoop : ElementList → List (String × Option VTree) → VTree
  | .nil, acc => if acc.isEmpty then VTree.mk EMPTY_PARAMETERS else VTree.mk acc
  | .cons p rest, acc =>
    if pystartswith p.tag "cmd" then
      VTree.mk [(ANY_PARAMETER,
        some (VTree.mk [(pstrip ((p.attrD "name").getD ""), some (commandlist_params p))]))]
    else
      paramsLoop rest (dinsert
        (match p.attrD "name" with
          | some s => pstrip s
          | none => ANY_PARAMETER)
        (commandlist_cmds p) acc)
termination_by structural l _ => l

/-- `commandlist_cmds` from camera.py lines 76-82: parse sub-commands;
an empty dict becomes `None`. -/
def commandlist_cmds : Element → Option VTree
  | .mk _ _ _ cs =>
    match cmdsLoop cs [] with
    | [] => none
    | es => some (VTree.mk es)
termination_by structural e => e

/-- The `for cmd in parent` loop of `commandlist_cmds`.  The source
asserts every child tag starts with `cmd`; the assertion does not change
the dict built, so it is not modelled. -/
def cmdsLoop : ElementList → List (String × Option VTree) → List (String × Option VTree)
  | .nil, acc => acc
  | .cons c rest, acc =>
    cmdsLoop rest (dinsert (pstrip ((c.attrD "name").getD "")) (some (commandlist_params c)) acc)
termination_by structural l _ => l
end

/-- `CmdDescr` from camera.py lines 21-24. -/
structure CmdDescr : Type where
  method : String
  args : Option VTree

/-- The errors camera.py can raise locally.  The source interpolates the
fields into a `RequestError` message string; each constructor keeps the
data that message would carry. -/
inductive PyErr : Type where
  /-- lines 114-117: unknown command, listing the valid commands. -/
  | unsupportedCommand (command : String) (validCommands : List String)
  /-- lines 122-125: value for the post body key is not of type bytes. -/
  | postTypeError (command : String)
  /-- lines 127-129: the command takes no arguments (`args is None`). -/
  | unsupportedParamNoSchema (command key : String) (value : PyVal)
  /-- lines 135-138: name matched neither a literal nor the wildcard;
  `supported` lists the accepted names. -/
  | unsupportedParam (command key : String) (value : PyVal) (supported : List String)
  /-- lines 144-147: value matched neither a literal nor the wildcard;
  `supported` lists the accepted values. -/
  | unsupportedValue (command key : String) (value : PyVal) (supported : List String)
  /-- Python TypeError: after descending into a `None` child on the name,
  line 140 evaluates `value in None`, which is not a RequestError at all. -/
  | noneNotIterable
  /-- lines 91-94: method is post and `post_data` is absent; carries the
  attempted arguments. -/
  | missingPostData (command : String) (args : List (String × PyVal))
  /-- line 90: `assert method == post` failed. -/
  | assertFailed
  /-- camera.py line 177 evaluates `time.strftime` where `time` is the
  class `datetime.time` imported on line 2: binding a `str` to `self`
  raises TypeError. -/
  | typeErrorStrftime

/-- One descent step of `check_valid_command`: exact literal entry first,
wildcard entry otherwise (`if tok in d ... elif wildcard in d`).  A
non-string token never equals a string key, so only the wildcard can
match it. -/
def lookupTok (entries : List (String × Option VTree)) (tok : PyVal) :
    Option (Option VTree) :=
  match tok with
  | .str s =>
    match alookup entries s with
    | some child => some child
    | none => alookup entries ANY_PARAMETER
  | _ => alookup entries ANY_PARAMETER

/-- The `for key, value in args.items()` loop of `check_valid_command`
(camera.py lines 120-147), threading the current validation node. -/
def checkArgs (command method : String) :
    Option VTree → List (String × PyVal) → Except PyErr Unit
  | _, [] => .ok ()
  | node, (key, value) :: rest =>
    if key = "post_date" ∧ method = "post" then
      match value with
      | .bytes _ => checkArgs command method node rest
      | _ => .error (.postTypeError command)
    else
      match node with
      | none => .error (.unsupportedParamNoSchema command key value)
      | some (VTree.mk entries) =>
        match lookupTok entries (.str key) with
        | none => .error (.unsupportedParam command key value (akeys entries))
        | some child =>
          match child with
          | none => .error .noneNotIterable
          | some (VTree.mk ventries) =>
            match lookupTok ventries value with
            | none => .error (.unsupportedValue command key value (akeys ventries))
            | some next => checkArgs command method next rest

/-- `check_valid_command` from camera.py lines 113-147. -/
def check_valid_command (commands : List (String × CmdDescr)) (command : String)
    (args : List (String × PyVal)) : Except PyErr Unit :=
  match alookup commands command with
  | none => .error (.unsupportedCommand command (akeys commands))
  | some descr => checkArgs command descr.method descr.args args

/-- Truthiness of `xml.text and xml.text.strip()` (camera.py line 160):
the text exists and is not all whitespace. -/
def textTruthy : Option String → Bool
  | none => false
  | some s => !(pstrip s).isEmpty

mutual
/-- `xml2dict` from camera.py lines 159-169.  The Python function mutates
`parent` and returns the list of groups; here it returns the updated
`parent` alongside the groups. -/
def xml2dict : Element → List (String × String) →
    List (String × String) × List (List (String × String))
  | .mk t _ x cs, parent =>
    if textTruthy x then
      (dinsert t (pstrip (x.getD "")) parent, [])
    else
      match xml2dictList cs [] [] with
      | (params, results) =>
        (parent, if params.isEmpty then results else results ++ [params])
termination_by structural e _ => e

/-- The `for elem in xml` loop of `xml2dict`, threading the fresh
`params` dict and accumulating `results`. -/
def xml2dictList : ElementList → List (String × String) →
    List (List (String × String)) →
    List (String × String) × List (List (String × String))
  | .nil, params, results => (params, results)
  | .cons e rest, params, results =>
    match xml2dict e params with
    | (params2, rs) => xml2dictList rest params2 (results ++ rs)
termination_by structural l _ _ => l
end

/-- A `requests.Response` as camera.py reads it: status code, final URL,
body text, the Content-Type header, and the element that
`ElementTree.fromstring(response.text)` yields (XML parsing itself is
library code, so the parsed element is carried alongside the text). -/
structure Response : Type where
  status_code : Nat
  url : String
  text : String
  contentType : Option String
  parsedXml : Element

/-- `xml_response` from camera.py lines 149-157: `inl` is a bare mapping
(a Python dict), `inr` a sequence of mappings, `none` the non-XML case. -/
def xml_response (r : Response) :
    Option (Sum (List (String × String)) (List (List (String × String)))) :=
  if r.contentType = some "text/xml" then
    match xml2dict r.parsedXml [] with
    | (my_dict, []) => some (.inl my_dict)
    | (_, [d]) => some (.inl d)
    | (_, l) => some (.inr l)
  else none

/-- The data of the `ResultError` raised at camera.py lines 109-111: the
source interpolates status code, cleaned-up URL and decoded message into
the exception string and attaches the response object. -/
structure ResultError : Type where
  status_code : Nat
  url : String
  msg : String
  response : Response

/-- An error escaping `send_command`: a local `RequestError`-style error
or a `ResultError` for a failed HTTP status. -/
inductive CamErr : Type where
  | py (e : PyErr)
  | result (e : ResultError)

/-- `HEADERS` from camera.py lines 27-28. -/
def HEADERS : List (String × String) :=
  [("Host", "192.168.0.10"), ("User-Agent", "OI.Share v2")]

/-- `URL_PREFIX` from camera.py line 26, kept verbatim: note the single
slash after `http:`. -/
def DEFAULT_URL : String := "http:/192.168.0.10/"

/-- The utf-8 bytes of the initial segment compared at camera.py line 98. -/
def XML_DECL : List Nat := [60, 63, 120, 109, 108, 32]

/-- camera.py line 98: `len(post_data) > 6 and post_data[:6] == b"<?xml "`.
A slice of a str never equals a bytes object, so only bytes can pass. -/
def isXmlPayload : PyVal → Bool
  | .bytes bs => decide (bs.length > 6) && bs.take 6 == XML_DECL
  | _ => false

/-- Python `str.replace` over characters: replace occurrences of `pat`
left to right, without overlap.  The fuel counter, initialized to the
length of the list, dominates the number of steps (each step consumes at
least one character), so the out-of-fuel branch is never reached; the
camera code only replaces nonempty patterns, so the guard on `pat` is
never the deciding condition either. -/
def replFuel (pat rep : List Char) : Nat → List Char → List Char
  | 0, l => l
  | _ + 1, [] => []
  | n + 1, c :: rest =>
    if pat ≠ [] ∧ pat.isPrefixOf (c :: rest) = true then
      rep ++ replFuel pat rep n ((c :: rest).drop pat.length)
    else
      c :: replFuel pat rep n rest

/-- Python `s.replace(pat, rep)`. -/
def pyreplace (s pat rep : String) : String :=
  String.mk (replFuel pat.toList rep.toList s.toList.length s.toList)

/-- Python `del d[k]`. -/
def dremove {α : Type} (k : String) : List (String × α) → List (String × α)
  | [] => []
  | (k', v) :: rest => if k' = k then rest else (k', v) :: dremove k rest

/-- The HTTP request handed to `requests.get` / `requests.post`. -/
structure HttpRequest : Type where
  method : String
  url : String
  headers : List (String × String)
  params : List (String × PyVal)
  data : Option PyVal

/-- camera.py lines 85-100: validate, build the URL from the configured
base (`URL_PREFIX`) and the command name, and assemble the request; for
post, require and split off `post_data`, overriding the content type for
an XML payload.  An error here means `requests` is never called. -/
def build_request (commands : List (String × CmdDescr)) (base command : String)
    (args : List (String × PyVal)) : Except PyErr HttpRequest :=
  match alookup commands command with
  | none => .error (.unsupportedCommand command (akeys commands))
  | some descr =>
    match checkArgs command descr.method descr.args args with
    | .error e => .error e
    | .ok _ =>
      let url := base ++ command ++ ".cgi"
      if descr.method = "get" then
        .ok ⟨"get", url, HEADERS, args, none⟩
      else if descr.method = "post" then
        match alookup args "post_data" with
        | none => .error (.missingPostData command args)
        | some pd =>
          .ok ⟨"post", url,
               if isXmlPayload pd then
                 dinsert "Content-type" "text/plain;charset=utf-8" HEADERS
               else HEADERS,
               dremove "post_data" args, some pd⟩
      else .error .assertFailed

/-- camera.py lines 102-111: a status other than ok (200) or accepted
(202) raises a `ResultError` carrying the status, the URL with `%2F`
restored to a slash, the decoded message, and the response. -/
def handle_response (r : Response) : Except ResultError Response :=
  if r.status_code = 200 || r.status_code = 202 then .ok r
  else
    .error ⟨r.status_code, pyreplace r.url "%2F" "/",
      match xml_response r with
      | some (.inl d) => String.intercalate ", " (d.map (fun p => p.1 ++ "=" ++ p.2))
      | _ => pyreplace r.text "\r\n" "",
      r⟩

/-- `send_command` (camera.py lines 84-111) against a network oracle
`net`; the second component logs every HTTP request actually issued. -/
def send_command (commands : List (String × CmdDescr)) (base : String)
    (net : HttpRequest → Response) (command : String)
    (args : List (String × PyVal)) : Except CamErr Response × List HttpRequest :=
  match build_request commands base command args with
  | .error e => (.error (.py e), [])
  | .ok req =>
    match handle_response (net req) with
    | .error e => (.error (.result e), [req])
    | .ok r => (.ok r, [req])

/-- The call `time.strftime` at camera.py line 177.  Line 2 reads
`from datetime import datetime, time`, so `time` is the class
`datetime.time` and `strftime` an unbound method: the single argument
binds to `self` and must be a `datetime.time` instance; a `str` raises
TypeError.  (A naive time instance would format `%z` as the empty
string.) -/
def time_strftime : PyVal → Except PyErr String
  | .timeObj => .ok ""
  | _ => .error .typeErrorStrftime

/-- `set_clock` from camera.py lines 174-177: switch to play mode, then
dispatch `set_utctimediff` with keyword arguments evaluated left to
right: `utctime` from `datetime.utcnow().strftime(...)` (passed in as
`now`) and `diff` from `time.strftime` applied to the string `%z`. -/
def set_clock (commands : List (String × CmdDescr)) (base : String)
    (net : HttpRequest → Response) (now : String) :
    Except CamErr Unit × List HttpRequest :=
  match send_command commands base net "switch_cammode" [("mode", .str "play")] with
  | (.error e, log) => (.error e, log)
  | (.ok _, log) =>
    match time_strftime (.str "%z") with
    | .error e => (.error (.py e), log)
    | .ok d =>
      match send_command commands base net "set_utctimediff"
          [("utctime", .str now), ("diff", .str d)] with
      | (res, log2) => (res.map (fun _ => ()), log ++ log2)

/-- The mutable state built by `__init__` (camera.py lines 35-55). -/
structure InitState : Type where
  commands : List (String × CmdDescr)
  supported : List String
  versions : List (String × String)

/-- Python `set.add`. -/
def addSupported (s : String) (l : List String) : List String :=
  if s ∈ l then l else l ++ [s]

/-- The `for http_method in elem` loop at camera.py lines 48-51: each
`http_method` child overwrites the entry for the cgi name. -/
def httpMethodLoop (cmdName : String) :
    ElementList → List (String × CmdDescr) → List (String × CmdDescr)
  | .nil, cs => cs
  | .cons hm rest, cs =>
    httpMethodLoop cmdName rest
      (if hm.tag = "http_method" then
        dinsert cmdName ⟨(hm.attrD "type").getD "", commandlist_cmds hm⟩ cs
      else cs)

/-- The `for elem in ElementTree.fromstring(response.text)` loop of
`__init__` (camera.py lines 46-55).  In the version branch the source
writes `self.versions[elem.tag] = elem.text.strip()`: the key is the tag
itself. -/
def init_loop : ElementList → InitState → InitState
  | .nil, st => st
  | .cons e rest, st =>
    init_loop rest
      (if e.tag = "cgi" then
        { st with commands := httpMethodLoop ((e.attrD "name").getD "") e.children st.commands }
      else if e.tag = "support" then
        { st with supported := addSupported ((e.attrD "func").getD "") st.supported }
      else if e.tag = "version" then
        { st with versions := dinsert e.tag (pstrip (e.text.getD "")) st.versions }
      else st)

/-! Concrete fixtures used by the theorems below. -/

/-- The schema of the spec example for validation:
`set_mode` taking `mode` with values `rec` and `play`. -/
def demoCommands : List (String × CmdDescr) :=
  [("set_mode", ⟨"get", some (VTree.mk
      [("mode", some (VTree.mk [("rec", none), ("play", none)]))])⟩)]

/-- A post-only command whose schema accepts no named arguments
(`args is None`). -/
def demoPostCommands : List (String × CmdDescr) :=
  [("do_post", ⟨"post", none⟩)]

/-- The element `<a>1</a>`: a root that is itself a text leaf. -/
def elemLeafA : Element := .mk "a" [] (some "1") .nil

/-- A text/xml response whose body parses to `elemLeafA`. -/
def respLeafA : Response := ⟨200, "u", "<a>1</a>", some "text/xml", elemLeafA⟩

/-- The element of the spec example `<a><b>1</b><c>2</c></a>`. -/
def elemAbc : Element :=
  .mk "a" [] none (.cons (.mk "b" [] (some "1") .nil)
    (.cons (.mk "c" [] (some "2") .nil) .nil))

/-- A text/xml response whose body parses to `elemAbc`. -/
def respAbc : Response :=
  ⟨200, "u", "<a><b>1</b><c>2</c></a>", some "text/xml", elemAbc⟩

/-- The element of the spec example `<a><x><b>1</b></x><y><b>2</b></y></a>`. -/
def elemAxy : Element :=
  .mk "a" [] none
    (.cons (.mk "x" [] none (.cons (.mk "b" [] (some "1") .nil) .nil))
      (.cons (.mk "y" [] none (.cons (.mk "b" [] (some "2") .nil) .nil)) .nil))

/-- A text/xml response whose body parses to `elemAxy`. -/
def respAxy : Response :=
  ⟨200, "u", "<a><x><b>1</b></x><y><b>2</b></y></a>", some "text/xml", elemAxy⟩

/-- The element `<a><b>1</b><b>2</b></a>`: duplicate sibling tags. -/
def elemDup : Element :=
  .mk "a" [] none (.cons (.mk "b" [] (some "1") .nil)
    (.cons (.mk "b" [] (some "2") .nil) .nil))

/-- An element with no children and no text. -/
def dummyElem : Element := .mk "x" [] none .nil

/-- A successful response, for network oracles in witnesses. -/
def okResponse : Response := ⟨200, "http:/192.168.0.10/x.cgi", "", none, dummyElem⟩

/-- A network oracle that always answers with `okResponse`. -/
def constNet : HttpRequest → Response := fun _ => okResponse

/-- The failed response of the spec example: status 500, XML body with
elements code=7 and msg=busy. -/
def errResponse : Response :=
  ⟨500, "http:/192.168.0.10/get_x.cgi",
    "<response><code>7</code><msg>busy</msg></response>", some "text/xml",
    .mk "response" [] none (.cons (.mk "code" [] (some "7") .nil)
      (.cons (.mk "msg" [] (some "busy") .nil) .nil))⟩

/-- A schema containing the two commands `set_clock` issues. -/
def clockCommands : List (String × CmdDescr) :=
  [("switch_cammode", ⟨"get", some (VTree.mk
      [("mode", some (VTree.mk [("play", none), ("rec", none)]))])⟩),
   ("set_utctimediff", ⟨"get", some (VTree.mk
      [(ANY_PARAMETER, some (VTree.mk [(ANY_PARAMETER, none)]))])⟩)]

/-- Concatenation of element lists (for stating sibling decompositions). -/
def eappend : ElementList → ElementList → ElementList
  | .nil, l => l
  | .cons e r, l => .cons e (eappend r l)

/-- No element of the list has a tag starting with `cmd`. -/
def noCmdTag : ElementList → Bool
  | .nil => true
  | .cons e r => !(pystartswith e.tag "cmd") && noCmdTag r

/-- Every validation node reachable from this one has at least one
entry. -/
inductive AllNonempty : VTree → Prop where
  | mk (es : List (String × Option VTree)) :
      es ≠ [] →
      (∀ p ∈ es, ∀ t, p.2 = some t → AllNonempty t) →
      AllNonempty (.mk es)

/-- An element with a single sub-command child, used as a witness input. -/
def elemOneCmd : Element :=
  .mk "http_method" [] none (.cons (.mk "cmd1" [("name", "go")] none .nil) .nil)

/-- A sibling list with one ordinary parameter declaration (no `cmd`
tag), used as the part before the sub-command in the C7 witness. -/
def preW : ElementList := .cons (.mk "param" [("name", "aaa")] none .nil) .nil

/-- A sub-command declaration element. -/
def pW : Element := .mk "cmd2" [("name", "sub")] none .nil

/-- A sibling list after the sub-command in the C7 witness. -/
def postW : ElementList := .cons (.mk "param" [("name", "zzz")] none .nil) .nil

/-! Helper lemmas. -/

theorem dinsert_mem {α : Type} (k : String) (v : α) (l : List (String × α)) :
    ∀ p ∈ dinsert k v l, p = (k, v) ∨ p ∈ l := by
  induction l with
  | nil => simp [dinsert]
  | cons q rest ih =>
    intro p hp
    rw [dinsert] at hp
    split at hp
    · rw [List.mem_cons] at hp
      rcases hp with h | h
      · exact Or.inl h
      · exact Or.inr (List.mem_cons_of_mem _ h)
    · rw [List.mem_cons] at hp
      rcases hp with h | h
      · exact Or.inr (h ▸ List.mem_cons_self _ _)
      · rcases ih p h with h2 | h2
        · exact Or.inl h2
        · exact Or.inr (List.mem_cons_of_mem _ h2)

theorem dinsert_ne_nil {α : Type} (k : String) (v : α) (l : List (String × α)) :
    dinsert k v l ≠ [] := by
  cases l with
  | nil => simp [dinsert]
  | cons q rest =>
    rw [dinsert]
    split <;> simp

mutual
/-- Every node in the output of `commandlist_params` has at least one
entry. -/
theorem commandlist_params_deep : ∀ (e : Element), AllNonempty (commandlist_params e)
  | .mk _ _ _ cs => by
    rw [commandlist_params]
    exact paramsLoop_deep cs [] (by intro p hp; simp at hp)
termination_by structural e => e

theorem paramsLoop_deep : ∀ (l : ElementList) (acc : List (String × Option VTree)),
    (∀ p ∈ acc, ∀ t, p.2 = some t → AllNonempty t) → AllNonempty (paramsLoop l acc)
  | .nil, acc, hacc => by
    rw [paramsLoop]
    split
    · refine AllNonempty.mk _ (by simp [EMPTY_PARAMETERS]) ?_
      intro p hp t ht
      simp [EMPTY_PARAMETERS] at hp
      rw [hp] at ht
      simp at ht
    · refine AllNonempty.mk _ ?_ hacc
      intro hnil
      simp [hnil] at *
  | .cons p rest, acc, hacc => by
    rw [paramsLoop]
    split
    · refine AllNonempty.mk _ (by simp) ?_
      intro q hq t ht
      simp at hq
      rw [hq] at ht
      simp at ht
      rw [← ht]
      refine AllNonempty.mk _ (by simp) ?_
      intro q2 hq2 t2 ht2
      simp at hq2
      rw [hq2] at ht2
      simp at ht2
      rw [← ht2]
      exact commandlist_params_deep p
    · refine paramsLoop_deep rest _ ?_
      intro q hq t ht
      rcases dinsert_mem _ _ _ q hq with h | h
      · rw [h] at ht
        exact commandlist_cmds_deep p t ht
      · exact hacc q h t ht
termination_by structural l _ _ => l

/-- Every node in the output of `commandlist_cmds` has at least one
entry. -/
theorem commandlist_cmds_deep : ∀ (e : Element) (t : VTree),
    commandlist_cmds e = some t → AllNonempty t
  | .mk _ _ _ cs, t, ht => by
    rw [commandlist_cmds] at ht
    cases hcl : cmdsLoop cs [] with
    | nil => rw [hcl] at ht; simp at ht
    | cons q qrest =>
      rw [hcl] at ht
      simp at ht
      rw [← ht]
      refine AllNonempty.mk _ (by simp) ?_
      have := cmdsLoop_deep cs [] (by intro p hp; simp at hp)
      rw [hcl] at this
      exact this
termination_by structural e _ _ => e

theorem cmdsLoop_deep : ∀ (l : ElementList) (acc : List (String × Option VTree)),
    (∀ p ∈ acc, ∀ t, p.2 = some t → AllNonempty t) →
    ∀ p ∈ cmdsLoop l acc, ∀ t, p.2 = some t → AllNonempty t
  | .nil, acc, hacc => by rw [cmdsLoop]; exact hacc
  | .cons c rest, acc, hacc => by
    rw [cmdsLoop]
    refine cmdsLoop_deep rest _ ?_
    intro q hq t ht
    rcases dinsert_mem _ _ _ q hq with h | h
    · rw [h] at ht
      simp at ht
      rw [← ht]
      exact commandlist_params_deep c
    · exact hacc q h t ht
termination_by structural l _ _ => l
end

/-! Claim theorems. -/

/-- C1: validation descends twice per argument pair: on the name it takes
the exact literal entry when present, otherwise the wildcard entry,
otherwise it raises an unsupported-parameter error enumerating the
accepted names; on the value likewise with an unsupported-value error
enumerating the accepted values; a literal match beats the wildcard.  On
the schema of the spec example, mode=rec passes and mode=standby fails
listing rec and play. -/
theorem C1_validation_descent :
    (∀ (entries : List (String × Option VTree)) (s : String) (c : Option VTree),
        alookup entries s = some c → lookupTok entries (.str s) = some c) ∧
    (∀ (entries : List (String × Option VTree)) (s : String),
        alookup entries s = none →
        lookupTok entries (.str s) = alookup entries ANY_PARAMETER) ∧
    (∀ (command method key : String) (value : PyVal)
        (entries : List (String × Option VTree)) (rest : List (String × PyVal)),
        ¬(key = "post_date" ∧ method = "post") →
        lookupTok entries (.str key) = none →
        checkArgs command method (some (.mk entries)) ((key, value) :: rest) =
          .error (.unsupportedParam command key value (akeys entries))) ∧
    (∀ (command method key : String) (value : PyVal)
        (entries ventries : List (String × Option VTree)) (rest : List (String × PyVal)),
        ¬(key = "post_date" ∧ method = "post") →
        lookupTok entries (.str key) = some (some (.mk ventries)) →
        lookupTok ventries value = none →
        checkArgs command method (some (.mk entries)) ((key, value) :: rest) =
          .error (.unsupportedValue command key value (akeys ventries))) ∧
    (∀ (command method key : String) (value : PyVal)
        (entries ventries : List (String × Option VTree)) (next : Option VTree)
        (rest : List (String × PyVal)),
        ¬(key = "post_date" ∧ method = "post") →
        lookupTok entries (.str key) = some (some (.mk ventries)) →
        lookupTok ventries value = some next →
        checkArgs command method (some (.mk entries)) ((key, value) :: rest) =
          checkArgs command method next rest) ∧
    check_valid_command demoCommands "set_mode" [("mode", .str "rec")] = .ok () ∧
    check_valid_command demoCommands "set_mode" [("mode", .str "standby")] =
      .error (.unsupportedValue "set_mode" "mode" (.str "standby") ["rec", "play"]) := by
  refine ⟨?_, ?_, ?_, ?_, ?_, rfl, rfl⟩
  · intro entries s c h
    simp [lookupTok, h]
  · intro entries s h
    simp [lookupTok, h]
  · intro command method key value entries rest hpd hlk
    simp [checkArgs, hpd, hlk]
  · intro command method key value entries ventries rest hpd hk hv
    simp [checkArgs, hpd, hk, hv]
  · intro command method key value entries ventries next rest hpd hk hv
    simp [checkArgs, hpd, hk, hv]

/-- Witness for C1 at concrete inputs. -/
theorem C1_validation_descent_witness :
    lookupTok [("mode", none)] (.str "mode") = some none ∧
    lookupTok [("a", none)] (.str "b") = alookup [("a", none)] ANY_PARAMETER ∧
    checkArgs "c" "get" (some (.mk [("a", none)])) [("k", .str "v")] =
      .error (.unsupportedParam "c" "k" (.str "v") ["a"]) ∧
    checkArgs "c" "get" (some (.mk [("k", some (.mk [("x", none)]))])) [("k", .str "y")] =
      .error (.unsupportedValue "c" "k" (.str "y") ["x"]) ∧
    checkArgs "c" "get" (some (.mk [("k", some (.mk [("x", none)]))])) [("k", .str "x")] =
      checkArgs "c" "get" none [] :=
  ⟨C1_validation_descent.1 _ "mode" _ rfl,
   C1_validation_descent.2.1 _ "b" rfl,
   C1_validation_descent.2.2.1 "c" "get" "k" (.str "v") [("a", none)] []
     (by simp) rfl,
   C1_validation_descent.2.2.2.1 "c" "get" "k" (.str "y")
     [("k", some (.mk [("x", none)]))] [("x", none)] [] (by simp) rfl rfl,
   C1_validation_descent.2.2.2.2.1 "c" "get" "k" (.str "x")
     [("k", some (.mk [("x", none)]))] [("x", none)] none [] (by simp) rfl rfl⟩

/-- C2 counterexample: on the input `<a>1</a>` the converter produces zero
groups, yet the top level collapses to the nonempty mapping a=1, not to
the empty mapping as the claim states. -/
theorem C2_zero_groups_counterexample :
    (xml2dict elemLeafA []).2 = [] ∧
    xml_response respLeafA = some (.inl [("a", "1")]) ∧
    xml_response respLeafA ≠ some (.inl []) := by
  have h2 : xml_response respLeafA = some (.inl [("a", "1")]) := rfl
  refine ⟨rfl, h2, ?_⟩
  rw [h2]
  simp

/-- C2 (amended): sibling leaves merge into one mapping with
last-write-wins, groups from different branches stay separate, and the
top level collapses as: zero groups yield the mapping accumulated at the
top level (empty unless the root itself is a text leaf), exactly one
group yields that bare mapping, and more than one yields the sequence of
groups in document order; the two spec examples normalize as stated. -/
theorem C2_xml_tree_converter :
    (∀ (r : Response), r.contentType = some "text/xml" →
      ∀ (d : List (String × String)) (l : List (List (String × String))),
        xml2dict r.parsedXml [] = (d, l) →
        (l = [] → xml_response r = some (.inl d)) ∧
        (∀ g, l = [g] → xml_response r = some (.inl g)) ∧
        (2 ≤ l.length → xml_response r = some (.inr l))) ∧
    xml_response respAbc = some (.inl [("b", "1"), ("c", "2")]) ∧
    xml_response respAxy = some (.inr [[("b", "1")], [("b", "2")]]) ∧
    (xml2dict elemDup []).2 = [[("b", "2")]] ∧
    xml_response respLeafA = some (.inl [("a", "1")]) := by
  refine ⟨?_, ?_, ?_, ?_, ?_⟩
  · intro r hct d l h
    refine ⟨?_, ?_, ?_⟩
    · intro hl
      rw [hl] at h
      simp [xml_response, hct, h]
    · intro g hl
      rw [hl] at h
      simp [xml_response, hct, h]
    · intro hlen
      match l, hlen with
      | a :: b :: bs, _ =>
        simp [xml_response, hct, h]
  · rfl
  · rfl
  · rfl
  · rfl

/-- Witness for C2 at a concrete response. -/
theorem C2_xml_tree_converter_witness :
    xml_response respAbc = some (.inl [("b", "1"), ("c", "2")]) :=
  (C2_xml_tree_converter.1 respAbc rfl [] [[("b", "1"), ("c", "2")]]
    rfl).2.1
    [("b", "1"), ("c", "2")] rfl

/-- C3: the special case of `check_valid_command` tests the key
`post_date`, not the post body key `post_data`: `post_data` is validated
against the schema (and rejected when the command takes no arguments,
exactly the situation `send_command` requires it in), while `post_date`
is accepted unconditionally for post commands when bytes and rejected
with a type error otherwise. -/
theorem C3_post_key_typo :
    check_valid_command demoPostCommands "do_post" [("post_data", .bytes [0])] =
      .error (.unsupportedParamNoSchema "do_post" "post_data" (.bytes [0])) ∧
    check_valid_command demoPostCommands "do_post" [("post_date", .bytes [0])] = .ok () ∧
    check_valid_command demoPostCommands "do_post" [("post_date", .str "x")] =
      .error (.postTypeError "do_post") :=
  ⟨rfl, rfl, rfl⟩

/-- C4: for a post-method command whose arguments pass validation but
lack `post_data`, dispatch fails with the request error carrying the
attempted arguments, and no HTTP request is issued. -/
theorem C4_missing_post_data (commands : List (String × CmdDescr))
    (base command : String) (args : List (String × PyVal)) (descr : CmdDescr)
    (net : HttpRequest → Response)
    (hcmd : alookup commands command = some descr)
    (hpost : descr.method = "post")
    (hck : checkArgs command descr.method descr.args args = .ok ())
    (hnd : alookup args "post_data" = none) :
    build_request commands base command args =
      .error (.missingPostData command args) ∧
    (send_command commands base net command args).2 = [] := by
  have hck2 : checkArgs command "post" descr.args args = .ok () := hpost ▸ hck
  have hb : build_request commands base command args =
      .error (.missingPostData command args) := by
    simp [build_request, hcmd, hpost, hck2, hnd]
  exact ⟨hb, by simp [send_command, hb]⟩

/-- Witness for C4: a post-only command with an empty schema, called
without arguments. -/
theorem C4_missing_post_data_witness :
    build_request demoPostCommands DEFAULT_URL "do_post" [] =
      .error (.missingPostData "do_post" []) ∧
    (send_command demoPostCommands DEFAULT_URL constNet "do_post" []).2 = [] :=
  C4_missing_post_data demoPostCommands DEFAULT_URL "do_post" [] ⟨"post", none⟩
    constNet rfl rfl rfl rfl

/-- C5: a status other than ok or accepted raises a result error carrying
the status code, the URL with escaped path separators restored, the
response, and a decoded message: comma-joined key=value pairs when the
body normalizes to a mapping, the raw text with line breaks stripped
otherwise; on the spec example the message is exactly code=7, msg=busy. -/
theorem C5_result_error :
    (∀ (r : Response), r.status_code ≠ 200 → r.status_code ≠ 202 →
      (∀ d, xml_response r = some (.inl d) →
        handle_response r = .error ⟨r.status_code, pyreplace r.url "%2F" "/",
          String.intercalate ", " (d.map (fun p => p.1 ++ "=" ++ p.2)), r⟩) ∧
      ((∀ d, xml_response r ≠ some (.inl d)) →
        handle_response r = .error ⟨r.status_code, pyreplace r.url "%2F" "/",
          pyreplace r.text "\r\n" "", r⟩)) ∧
    handle_response errResponse =
      .error ⟨500, "http:/192.168.0.10/get_x.cgi", "code=7, msg=busy", errResponse⟩ ∧
    pyreplace "http:%2F%2F192.168.0.10%2Fx.cgi" "%2F" "/" = "http://192.168.0.10/x.cgi" := by
  refine ⟨?_, ?_, rfl⟩
  · intro r h200 h202
    have hcond : (r.status_code = 200 || r.status_code = 202 : Bool) = false := by
      simp [h200, h202]
    constructor
    · intro d hd
      simp [handle_response, hcond, hd]
    · intro hnd
      cases hx : xml_response r with
      | none => simp [handle_response, hcond, hx]
      | some v =>
        cases v with
        | inl d => exact absurd hx (hnd d)
        | inr l => simp [handle_response, hcond, hx]
  · have hx : xml_response errResponse =
        some (.inl [("code", "7"), ("msg", "busy")]) := by
      simp only [xml_response, errResponse, xml2dict, xml2dictList]
      rfl
    simp only [handle_response]
    rw [hx]
    rfl

/-- Witness for C5 at the concrete failed response. -/
theorem C5_result_error_witness :
    handle_response errResponse =
      .error ⟨500, "http:/192.168.0.10/get_x.cgi", "code=7, msg=busy", errResponse⟩ :=
  (C5_result_error.1 errResponse (by decide) (by decide)).1
    [("code", "7"), ("msg", "busy")]
    rfl

/-- The short-circuit of the parameter-list rule: with no earlier `cmd`
sibling, the first `cmd` sibling alone determines the result, whatever
the accumulator holds and whatever follows. -/
theorem paramsLoop_shortcircuit : ∀ (pre : ElementList) (p : Element)
    (post : ElementList) (acc : List (String × Option VTree)),
    noCmdTag pre = true → pystartswith p.tag "cmd" = true →
    paramsLoop (eappend pre (.cons p post)) acc =
      .mk [(ANY_PARAMETER, some (.mk [(pstrip ((p.attrD "name").getD ""),
        some (commandlist_params p))]))]
  | .nil, p, post, acc, _, hp => by
    rw [eappend, paramsLoop]
    simp [hp]
  | .cons q qs, p, post, acc, hpre, hp => by
    rw [noCmdTag] at hpre
    simp only [Bool.and_eq_true, Bool.not_eq_true'] at hpre
    rw [eappend, paramsLoop]
    simp only [hpre.1]
    simp only [Bool.false_eq_true, if_false]
    exact paramsLoop_shortcircuit qs p post _ hpre.2 hp
termination_by structural pre _ _ _ _ _ => pre

/-- Every request issued by `send_command` goes to the URL built from the
base and the command name. -/
theorem build_request_url (commands : List (String × CmdDescr))
    (base command : String) (args : List (String × PyVal)) (req : HttpRequest)
    (h : build_request commands base command args = .ok req) :
    req.url = base ++ command ++ ".cgi" := by
  unfold build_request at h
  split at h
  · cases h
  · split at h
    · cases h
    · split at h
      · cases h
        rfl
      · split at h
        · split at h
          · cases h
          · cases h
            rfl
        · cases h

theorem send_command_log (commands : List (String × CmdDescr)) (base : String)
    (net : HttpRequest → Response) (command : String)
    (args : List (String × PyVal)) (req : HttpRequest)
    (h : req ∈ (send_command commands base net command args).2) :
    req.url = base ++ command ++ ".cgi" := by
  unfold send_command at h
  split at h
  · simp at h
  · rename_i rq hb
    split at h <;>
      (simp at h; exact h ▸ build_request_url commands base command args rq hb)

/-- The versions dict keeps the invariant that every key is the literal
tag `version` and there is at most one entry. -/
theorem init_loop_versions : ∀ (elems : ElementList) (st : InitState),
    st.versions.all (fun p => p.1 == "version") = true →
    st.versions.length ≤ 1 →
    (init_loop elems st).versions.all (fun p => p.1 == "version") = true ∧
    (init_loop elems st).versions.length ≤ 1
  | .nil, st, hall, hlen => by
    rw [init_loop]
    exact ⟨hall, hlen⟩
  | .cons e rest, st, hall, hlen => by
    rw [init_loop]
    apply init_loop_versions rest
    · split
      · exact hall
      · split
        · exact hall
        · split
          · rename_i htag
            simp only [htag]
            match st.versions, hall, hlen with
            | [], _, _ => simp [dinsert]
            | [(k, w)], hall, _ =>
              have hk : k = "version" := by simpa using hall
              simp [dinsert, hk]
          · exact hall
    · split
      · exact hlen
      · split
        · exact hlen
        · split
          · rename_i htag
            simp only [htag]
            match st.versions, hall, hlen with
            | [], _, _ => simp [dinsert]
            | [(k, w)], hall, _ =>
              have hk : k = "version" := by simpa using hall
              simp [dinsert, hk]
          · exact hlen
termination_by structural elems _ _ _ => elems

/-- C6: a validation node with zero entries self-normalizes to the
single-entry wildcard-accepts-anything node: a declaration with no
children parses to the wildcard node, every node produced during schema
discovery has at least one entry, and matching any token against the
wildcard-only node lands on the wildcard entry. -/
theorem C6_empty_node_normalization :
    (∀ (t : String) (a : List (String × String)) (x : Option String),
        commandlist_params (.mk t a x .nil) = .mk EMPTY_PARAMETERS) ∧
    (∀ e : Element, AllNonempty (commandlist_params e)) ∧
    (∀ (e : Element) (v : VTree), commandlist_cmds e = some v → AllNonempty v) ∧
    (∀ tok : PyVal, lookupTok EMPTY_PARAMETERS tok = some none) := by
  refine ⟨fun _ _ _ => rfl, commandlist_params_deep, commandlist_cmds_deep, ?_⟩
  intro tok
  cases tok with
  | str s =>
    by_cases h : ("*" : String) = s
    · subst h
      rfl
    · simp [lookupTok, alookup, EMPTY_PARAMETERS, ANY_PARAMETER, h]
  | bytes bs => rfl
  | timeObj => rfl

/-- Witness for C6: a concrete sub-command list whose nodes are all
nonempty. -/
theorem C6_empty_node_normalization_witness :
    AllNonempty (.mk [("go", some (.mk EMPTY_PARAMETERS))]) :=
  C6_empty_node_normalization.2.2.1 elemOneCmd _ rfl

/-- C7: when a sibling declares a sub-command, the parameter-list rule
short-circuits to the single-entry wildcard mapping built from the first
such sibling, and the siblings before it (already accumulated) and after
it contribute nothing. -/
theorem C7_subcommand_shortcircuit :
    ∀ (pre : ElementList) (p : Element) (post : ElementList)
      (acc : List (String × Option VTree)),
      noCmdTag pre = true → pystartswith p.tag "cmd" = true →
      paramsLoop (eappend pre (.cons p post)) acc =
        .mk [(ANY_PARAMETER, some (.mk [(pstrip ((p.attrD "name").getD ""),
          some (commandlist_params p))]))] :=
  paramsLoop_shortcircuit

/-- Witness for C7: one ordinary sibling before the sub-command, one
after, and a nonempty accumulator; the result is the wildcard gate into
the sub-command alone. -/
theorem C7_subcommand_shortcircuit_witness :
    paramsLoop (eappend preW (.cons pW postW)) [("x", none)] =
      .mk [("*", some (.mk [("sub", some (.mk [("*", none)]))]))] :=
  C7_subcommand_shortcircuit preW pW postW [("x", none)] rfl rfl

/-- C8: the request URL is the configured base followed by the command
name and the suffix .cgi, and the fixed Host and User-Agent headers ride
along; with no base configured the default produces
http:/192.168.0.10/get_commandlist.cgi, which does not start with
http:// (the source URL_PREFIX has a single slash after the scheme). -/
theorem C8_request_url :
    (∀ (commands : List (String × CmdDescr)) (base command : String)
        (args : List (String × PyVal)) (descr : CmdDescr),
        alookup commands command = some descr →
        checkArgs command descr.method descr.args args = .ok () →
        descr.method = "get" →
        build_request commands base command args =
          .ok ⟨"get", base ++ command ++ ".cgi", HEADERS, args, none⟩) ∧
    DEFAULT_URL ++ "get_commandlist" ++ ".cgi" =
      "http:/192.168.0.10/get_commandlist.cgi" ∧
    pystartswith "http:/192.168.0.10/get_commandlist.cgi" "http://" = false ∧
    alookup HEADERS "Host" = some "192.168.0.10" ∧
    alookup HEADERS "User-Agent" = some "OI.Share v2" := by
  refine ⟨?_, rfl, rfl, rfl, rfl⟩
  intro commands base command args descr hcmd hck hget
  have hck2 : checkArgs command "get" descr.args args = .ok () := hget ▸ hck
  simp [build_request, hcmd, hget, hck2]

/-- Witness for C8 at the example command. -/
theorem C8_request_url_witness :
    build_request demoCommands DEFAULT_URL "set_mode" [("mode", .str "rec")] =
      .ok ⟨"get", "http:/192.168.0.10/set_mode.cgi", HEADERS,
        [("mode", PyVal.str "rec")], none⟩ :=
  C8_request_url.1 demoCommands DEFAULT_URL "set_mode" [("mode", .str "rec")]
    ⟨"get", some (VTree.mk [("mode", some (VTree.mk [("rec", none), ("play", none)]))])⟩
    rfl rfl rfl

/-- C9: `set_clock` never reaches `set_utctimediff`: when the mode switch
succeeds, evaluating the diff keyword raises the strftime TypeError (the
name `time` is the class `datetime.time`), the call fails locally, and
the only request ever issued is the `switch_cammode` one. -/
theorem C9_set_clock_typeerror :
    (∀ (commands : List (String × CmdDescr)) (base : String)
        (net : HttpRequest → Response) (now : String)
        (r : Response) (log : List HttpRequest),
        send_command commands base net "switch_cammode" [("mode", .str "play")] =
          (.ok r, log) →
        set_clock commands base net now = (.error (.py .typeErrorStrftime), log)) ∧
    time_strftime (.str "%z") = .error .typeErrorStrftime ∧
    (∀ (commands : List (String × CmdDescr)) (base : String)
        (net : HttpRequest → Response) (now : String) (req : HttpRequest),
        req ∈ (set_clock commands base net now).2 →
        req.url = base ++ "switch_cammode" ++ ".cgi") := by
  refine ⟨?_, rfl, ?_⟩
  · intro commands base net now r log h
    simp [set_clock, h, time_strftime]
  · intro commands base net now req h
    unfold set_clock at h
    split at h
    · rename_i e log heq
      exact send_command_log commands base net "switch_cammode" _ req
        (by rw [heq]; exact h)
    · rename_i u log heq
      simp only [time_strftime] at h
      exact send_command_log commands base net "switch_cammode" _ req
        (by rw [heq]; exact h)

/-- Witness for C9: with the schema containing both commands and a network
that always answers 200, set_clock still fails with the TypeError after
issuing only the switch_cammode request. -/
theorem C9_set_clock_typeerror_witness :
    set_clock clockCommands DEFAULT_URL constNet "20260101T000000" =
      (.error (.py .typeErrorStrftime),
       [⟨"get", "http:/192.168.0.10/switch_cammode.cgi", HEADERS,
         [("mode", PyVal.str "play")], none⟩]) :=
  C9_set_clock_typeerror.1 clockCommands DEFAULT_URL constNet "20260101T000000"
    okResponse
    [⟨"get", "http:/192.168.0.10/switch_cammode.cgi", HEADERS,
      [("mode", PyVal.str "play")], none⟩] rfl

/-- C10: after the discovery loop, every key of the versions dict is the
literal string version (the element tag, not a per-component name), so at
most one entry remains; a second version element overwrites the first. -/
theorem C10_versions_single_key :
    (∀ (elems : ElementList) (cs : List (String × CmdDescr)),
      (init_loop elems ⟨cs, [], []⟩).versions.all (fun p => p.1 == "version") = true ∧
      (init_loop elems ⟨cs, [], []⟩).versions.length ≤ 1) ∧
    (init_loop (.cons (.mk "version" [] (some "1.0") .nil)
        (.cons (.mk "version" [] (some "2.0") .nil) .nil))
      ⟨[], [], []⟩).versions = [("version", "2.0")] :=
  ⟨fun elems cs => init_loop_versions elems ⟨cs, [], []⟩ rfl (by simp), rfl⟩

end OlympusGUI
